import Mathlib

/-!
Verification of the JEXAM live-session backend.

The repository ships two data-access layers with the same logical API:

* `MockBackendService` (in-memory mock): classes are a mutable array, the
  live-session map `LIVE_SESSIONS` is a string-keyed object.
* `FirebaseService` (Firestore): classes, sessions, users and enrollments are
  document collections; `updateDoc` rejects when the target document does not
  exist, `setDoc` upserts, `deleteDoc` succeeds even when the document is
  absent.

Both are embedded below as pure state transformers.  String-keyed document
stores (JS objects / Firestore collections) are modelled as association
lists with exact key equality.  Nondeterministic inputs of the source
(generated ids, timestamps) are taken as explicit parameters.
-/

namespace JEXAM

/-- A string-keyed document store: first binding for a key wins.
Models both the JS object `LIVE_SESSIONS[classId]` read (`x || null`) and
Firestore `getDoc`. -/
def getDoc {α : Type} : List (String × α) → String → Option α
  | [], _ => none
  | kv :: rest, c => if kv.1 = c then some kv.2 else getDoc rest c

/-- Upsert: models JS object assignment `obj[k] = v` and Firestore `setDoc`. -/
def setDoc {α : Type} : List (String × α) → String → α → List (String × α)
  | [], c, v => [(c, v)]
  | kv :: rest, c, v => if kv.1 = c then (c, v) :: rest else kv :: setDoc rest c v

/-- Key removal: models JS `delete obj[k]` and Firestore `deleteDoc` (which
succeeds even when the document is absent). -/
def deleteDoc {α : Type} : List (String × α) → String → List (String × α)
  | [], _ => []
  | kv :: rest, c => if kv.1 = c then deleteDoc rest c else kv :: deleteDoc rest c

/-- `UserRole` enum from types.ts. -/
inductive UserRole : Type
  | teacher
  | student
  | admin
deriving DecidableEq, Repr

/-- `StreamMode` enum from types.ts. -/
inductive StreamMode : Type
  | CAMERA
  | SCREEN
  | WHITEBOARD
deriving DecidableEq, Repr

namespace Mock

/-- `User` interface from the mock variant of types.ts. -/
structure User : Type where
  id : String
  role : UserRole
  name : String
  email : Option String := none
  student_code : Option String := none
  avatar_url : Option String := none
deriving DecidableEq, Repr

/-- `ClassModel` from the mock variant of types.ts.  The TS field `isLive` is
declared optional, but every construction site in the mock service assigns it
a boolean, so it is embedded as `Bool`. -/
structure ClassModel : Type where
  id : String
  teacher_id : String
  title : String
  description : String
  created_at : String
  isLive : Bool
deriving DecidableEq, Repr

/-- `Enrollment` from the mock variant of types.ts. -/
structure Enrollment : Type where
  id : String
  class_id : String
  student_id : String
deriving DecidableEq, Repr

/-- `StudentAnalytics` from the mock variant of types.ts. -/
structure StudentAnalytics : Type where
  id : String
  name : String
  score : Nat
  attendance : Nat
deriving DecidableEq, Repr

/-- `LiveSessionState` from the mock variant of types.ts (no `started_at`). -/
structure LiveSessionState : Type where
  classId : String
  isLive : Bool
  mode : StreamMode
  raisedHands : List String
  activeSpeakers : List String
deriving DecidableEq, Repr

/-- The mutable state of `MockBackendService`: its `users`, `classes` and
`enrollments` arrays plus the module-level `LIVE_SESSIONS` map.  The content
collections (videos, exams, posts) are untouched by the operations verified
here and are omitted. -/
structure State : Type where
  users : List User
  classes : List ClassModel
  enrollments : List Enrollment
  sessions : List (String × LiveSessionState)
deriving DecidableEq, Repr

/-- `this.classes.find(c => c.id === classId)` returns a live reference and
`cls.isLive = isLive` mutates it in place: update the first matching class. -/
def setIsLiveFirst : List ClassModel → String → Bool → List ClassModel
  | [], _, _ => []
  | c :: rest, classId, b =>
      if c.id == classId then { c with isLive := b } :: rest
      else c :: setIsLiveFirst rest classId b

namespace MockBackendService

/-- `createClass`: appends a fresh class with `isLive: false`.  The generated
id and timestamp are taken as parameters. -/
def createClass (s : State) (teacherId title description id created_at : String) :
    State :=
  { s with classes := s.classes ++
      [{ id := id, teacher_id := teacherId, title := title,
         description := description, created_at := created_at,
         isLive := false }] }

/-- `setClassLiveStatus`: if the class exists, set its `isLive` flag and
either initialize a fresh session record or delete the session record.
Silently does nothing when the class is not found. -/
def setClassLiveStatus (s : State) (classId : String) (isLive : Bool) : State :=
  match s.classes.find? (fun c => c.id == classId) with
  | none => s
  | some _ =>
      let classes := setIsLiveFirst s.classes classId isLive
      if isLive then
        { s with classes := classes,
                 sessions := setDoc s.sessions classId
                   ({ classId := classId, isLive := true,
                      mode := StreamMode.CAMERA,
                      raisedHands := [], activeSpeakers := [] }) }
      else
        { s with classes := classes,
                 sessions := deleteDoc s.sessions classId }

/-- `getLiveSessionState`: `LIVE_SESSIONS[classId] || null`. -/
def getLiveSessionState (s : State) (classId : String) : Option LiveSessionState :=
  getDoc s.sessions classId

/-- `updateStreamMode`: sets `mode` when the session exists. -/
def updateStreamMode (s : State) (classId : String) (mode : StreamMode) : State :=
  match getDoc s.sessions classId with
  | none => s
  | some sess =>
      { s with
          sessions := setDoc s.sessions classId ({ sess with mode := mode }) }

/-- `raiseHand`: pushes the student id when the session exists and the id is
not already present. -/
def raiseHand (s : State) (classId studentId : String) : State :=
  match getDoc s.sessions classId with
  | none => s
  | some sess =>
      if sess.raisedHands.contains studentId then s
      else
        { s with
            sessions :=
              setDoc s.sessions classId
                ({ sess with raisedHands := sess.raisedHands ++ [studentId] }) }

/-- `lowerHand`: filters the student id out of `raisedHands` when the session
exists. -/
def lowerHand (s : State) (classId studentId : String) : State :=
  match getDoc s.sessions classId with
  | none => s
  | some sess =>
      { s with
          sessions :=
            setDoc s.sessions classId
              ({ sess with raisedHands :=
                  sess.raisedHands.filter (fun id => id != studentId) }) }

/-- `allowSpeaker`: when the session exists, push the student id onto
`activeSpeakers` unless already present, then auto lower the hand via
`lowerHand`. -/
def allowSpeaker (s : State) (classId studentId : String) : State :=
  match getDoc s.sessions classId with
  | none => s
  | some sess =>
      let s1 :=
        if sess.activeSpeakers.contains studentId then s
        else
          { s with
              sessions :=
                setDoc s.sessions classId
                  ({ sess with activeSpeakers := sess.activeSpeakers ++ [studentId] }) }
      lowerHand s1 classId studentId

/-- `muteSpeaker`: filters the student id out of `activeSpeakers` when the
session exists. -/
def muteSpeaker (s : State) (classId studentId : String) : State :=
  match getDoc s.sessions classId with
  | none => s
  | some sess =>
      { s with
          sessions :=
            setDoc s.sessions classId
              ({ sess with activeSpeakers :=
                  sess.activeSpeakers.filter (fun id => id != studentId) }) }

/-- The deterministic seed of `getClassAnalytics`:
`for (i...) seed += student.id.charCodeAt(i)`. -/
def seedOf (id : String) : Nat :=
  id.data.foldl (fun acc ch => acc + ch.toNat) 0

/-- `getClassAnalytics`: enrollments of the class, resolved to users
(dropping unresolved ones, `.filter((u): u is User => !!u)`), mapped to a
pseudo-random score/attendance row derived from the student id. -/
def getClassAnalytics (s : State) (classId : String) : List StudentAnalytics :=
  let classEnrollments := s.enrollments.filter (fun e => e.class_id == classId)
  let students :=
    (classEnrollments.map (fun e => s.users.find? (fun u => u.id == e.student_id))).reduceOption
  students.map (fun student =>
    { id := student.id, name := student.name,
      score := 70 + seedOf student.id % 30,
      attendance := 80 + seedOf student.id % 20 })

end MockBackendService

/-- The `is_live` flag a class id currently carries: the flag of the first
class found with that id, `false` when no class exists. -/
def liveFlag (s : State) (cid : String) : Bool :=
  match s.classes.find? (fun c => c.id == cid) with
  | some c => c.isLive
  | none => false

/-- The liveness invariant of the mock store: a session record exists for a
class id iff that class's `isLive` flag is true. -/
def InvLive (s : State) : Prop :=
  ∀ cid : String, (getDoc s.sessions cid).isSome = liveFlag s cid

end Mock

namespace Fire

/-- `User` interface from the production variant of types.ts. -/
structure User : Type where
  id : String
  role : UserRole
  name : String
  email : Option String := none
  student_code : Option String := none
  avatar_url : Option String := none
  created_at : Option String := none
deriving DecidableEq, Repr

/-- `ClassModel` from the production variant of types.ts (`isLive` required,
optional `join_code`). -/
structure ClassModel : Type where
  id : String
  teacher_id : String
  title : String
  description : String
  created_at : String
  isLive : Bool
  join_code : Option String := none
deriving DecidableEq, Repr

/-- `Enrollment` from the production variant of types.ts. -/
structure Enrollment : Type where
  id : String
  class_id : String
  student_id : String
  enrolled_at : String
deriving DecidableEq, Repr

/-- `StudentAnalytics` from the production variant of types.ts. -/
structure StudentAnalytics : Type where
  id : String
  name : String
  score : Nat
  attendance : Nat
  submissions_count : Nat
deriving DecidableEq, Repr

/-- `LiveSessionState` from the production variant of types.ts
(includes `started_at`). -/
structure LiveSessionState : Type where
  classId : String
  isLive : Bool
  mode : StreamMode
  raisedHands : List String
  activeSpeakers : List String
  started_at : Nat
deriving DecidableEq, Repr

/-- Firestore failure relevant here: `updateDoc` rejects when the target
document does not exist. -/
inductive FireErr : Type
  | notFound
deriving DecidableEq, Repr

/-- The Firestore collections `FirebaseService` touches in the verified
operations, each keyed by document id. -/
structure State : Type where
  classes : List (String × ClassModel)
  sessions : List (String × LiveSessionState)
  users : List (String × User)
  enrollments : List (String × Enrollment)
deriving DecidableEq, Repr

namespace FirebaseService

/-- `setClassLiveStatus`: `updateDoc(classRef, { isLive })` (rejects when the
class document is missing), then `setDoc` of a fresh session or `deleteDoc`
of the session document.  `Date.now()` is the parameter `now`. -/
def setClassLiveStatus (s : State) (classId : String) (isLive : Bool)
    (now : Nat) : Except FireErr State :=
  match getDoc s.classes classId with
  | none => Except.error FireErr.notFound
  | some c =>
      let s1 : State :=
        { s with classes := setDoc s.classes classId ({ c with isLive := isLive }) }
      if isLive then
        Except.ok
          { s1 with
              sessions :=
                setDoc s1.sessions classId
                  ({ classId := classId, isLive := true,
                     mode := StreamMode.CAMERA,
                     raisedHands := [], activeSpeakers := [],
                     started_at := now }) }
      else
        Except.ok { s1 with sessions := deleteDoc s1.sessions classId }

/-- `updateStreamMode`: `updateDoc(doc(db, sessions, classId), { mode })` —
rejects when the session document is missing. -/
def updateStreamMode (s : State) (classId : String) (mode : StreamMode) :
    Except FireErr State :=
  match getDoc s.sessions classId with
  | none => Except.error FireErr.notFound
  | some sess =>
      Except.ok
        { s with
            sessions := setDoc s.sessions classId ({ sess with mode := mode }) }

/-- `raiseHand`: reads the session document; silently returns when it does
not exist; otherwise appends the user id unless already present. -/
def raiseHand (s : State) (classId userId : String) : Except FireErr State :=
  match getDoc s.sessions classId with
  | none => Except.ok s
  | some data =>
      if data.raisedHands.contains userId then Except.ok s
      else
        Except.ok
          { s with
              sessions :=
                setDoc s.sessions classId
                  ({ data with raisedHands := data.raisedHands ++ [userId] }) }

/-- `lowerHand`: reads the session document; silently returns when it does
not exist; otherwise filters the user id out of `raisedHands`. -/
def lowerHand (s : State) (classId userId : String) : Except FireErr State :=
  match getDoc s.sessions classId with
  | none => Except.ok s
  | some data =>
      Except.ok
        { s with
            sessions :=
              setDoc s.sessions classId
                ({ data with raisedHands :=
                    data.raisedHands.filter (fun id => id != userId) }) }

/-- `allowSpeaker`: reads the session document; silently returns when it does
not exist; otherwise appends the user id to `activeSpeakers` (the source has
no membership check here) and filters it out of `raisedHands`, in one
combined `updateDoc`. -/
def allowSpeaker (s : State) (classId userId : String) : Except FireErr State :=
  match getDoc s.sessions classId with
  | none => Except.ok s
  | some data =>
      let newSpeakers := data.activeSpeakers ++ [userId]
      let newHands := data.raisedHands.filter (fun id => id != userId)
      Except.ok
        { s with
            sessions :=
              setDoc s.sessions classId
                ({ data with activeSpeakers := newSpeakers,
                             raisedHands := newHands }) }

/-- `getClassAnalytics`: enrollment documents of the class, each resolved via
`getDoc(users, student_id)`; rows are pushed only for resolvable students and
carry the fixed placeholder score 85 / attendance 90 / submissions 5. -/
def getClassAnalytics (s : State) (classId : String) : List StudentAnalytics :=
  let enrollDocs :=
    (s.enrollments.map Prod.snd).filter (fun e => e.class_id == classId)
  enrollDocs.filterMap (fun enroll =>
    (getDoc s.users enroll.student_id).map (fun user =>
      { id := user.id, name := user.name,
        score := 85, attendance := 90, submissions_count := 5 }))

end FirebaseService

end Fire

/-! ### Document-store lemmas -/

theorem getDoc_setDoc {α : Type} (l : List (String × α)) (c c' : String) (v : α) :
    getDoc (setDoc l c v) c' = if c' = c then some v else getDoc l c' := by
  induction l with
  | nil =>
      by_cases h : c' = c
      · subst h; simp [setDoc, getDoc]
      · simp [setDoc, getDoc, h, Ne.symm h]
  | cons kv rest ih =>
      simp only [setDoc]
      by_cases hk : kv.1 = c <;> by_cases h : c' = c <;>
        simp [getDoc, hk, h, ih] <;> simp_all [eq_comm]

theorem getDoc_deleteDoc {α : Type} (l : List (String × α)) (c c' : String) :
    getDoc (deleteDoc l c) c' = if c' = c then none else getDoc l c' := by
  induction l with
  | nil => simp [deleteDoc, getDoc]
  | cons kv rest ih =>
      simp only [deleteDoc]
      by_cases hk : kv.1 = c <;> by_cases h : c' = c <;>
        simp [getDoc, hk, h, ih] <;> simp_all [eq_comm]

theorem setDoc_self {α : Type} (l : List (String × α)) (c : String) (v : α)
    (h : getDoc l c = some v) : setDoc l c v = l := by
  induction l with
  | nil => simp [getDoc] at h
  | cons kv rest ih =>
      simp only [getDoc] at h
      simp only [setDoc]
      by_cases hk : kv.1 = c
      · simp only [hk, if_pos] at h ⊢
        obtain ⟨rfl⟩ : kv.2 = v := Option.some.inj h
        simp [← hk]
      · simp only [hk, if_neg, not_false_iff] at h ⊢
        simp [ih h]

theorem deleteDoc_absent {α : Type} (l : List (String × α)) (c : String)
    (h : getDoc l c = none) : deleteDoc l c = l := by
  induction l with
  | nil => simp [deleteDoc]
  | cons kv rest ih =>
      simp only [getDoc] at h
      simp only [deleteDoc]
      by_cases hk : kv.1 = c
      · simp [hk] at h
      · simp only [hk, if_neg, not_false_iff] at h ⊢
        simp [ih h]

/-! ### Class-array lemmas for the mock service -/

namespace Mock

theorem find?_setIsLiveFirst_self (l : List ClassModel) (classId : String)
    (b : Bool) (cl : ClassModel)
    (h : l.find? (fun c => c.id == classId) = some cl) :
    (setIsLiveFirst l classId b).find? (fun c => c.id == classId) =
      some ({ cl with isLive := b }) := by
  induction l with
  | nil => simp [List.find?] at h
  | cons c rest ih =>
      by_cases hc : (c.id == classId) = true
      · have hcl : c = cl := by simpa [List.find?_cons, hc] using h
        subst hcl
        simp [setIsLiveFirst, hc, List.find?_cons]
      · have h2 : rest.find? (fun x => x.id == classId) = some cl := by
          simpa [List.find?_cons, hc] using h
        simp [setIsLiveFirst, hc, List.find?_cons, ih h2]

theorem find?_setIsLiveFirst_other (l : List ClassModel) (classId cid : String)
    (b : Bool) (hne : cid ≠ classId) :
    (setIsLiveFirst l classId b).find? (fun c => c.id == cid) =
      l.find? (fun c => c.id == cid) := by
  induction l with
  | nil => simp [setIsLiveFirst]
  | cons c rest ih =>
      by_cases hc : (c.id == classId) = true
      · have hid : c.id = classId := by simpa using hc
        have hcid : (c.id == cid) = false := by
          simp [hid]
          exact fun hcontra => hne hcontra.symm
        simp [setIsLiveFirst, hc, List.find?_cons, hcid]
      · by_cases hc2 : (c.id == cid) = true
        · simp [setIsLiveFirst, hc, List.find?_cons, hc2]
        · simp [setIsLiveFirst, hc, List.find?_cons, hc2, ih]

/-! ### Preservation of the liveness invariant (mock service) -/

theorem invLive_setDoc_existing (s : State) (classId : String)
    (v sess : LiveSessionState)
    (hs : getDoc s.sessions classId = some sess) (h : InvLive s) :
    InvLive { s with sessions := setDoc s.sessions classId v } := by
  intro cid
  show (getDoc (setDoc s.sessions classId v) cid).isSome = liveFlag s cid
  rw [getDoc_setDoc]
  by_cases hc : cid = classId
  · subst hc
    rw [if_pos rfl]
    have h2 := h cid
    rw [hs] at h2
    exact h2
  · rw [if_neg hc]
    exact h cid

theorem invLive_goLive (s : State) (classId : String) (v : LiveSessionState)
    (h : InvLive s) (cl : ClassModel)
    (hf : s.classes.find? (fun c => c.id == classId) = some cl) :
    InvLive { s with classes := setIsLiveFirst s.classes classId true,
                     sessions := setDoc s.sessions classId v } := by
  intro cid
  show (getDoc (setDoc s.sessions classId v) cid).isSome =
    liveFlag { s with classes := setIsLiveFirst s.classes classId true,
                      sessions := setDoc s.sessions classId v } cid
  rw [getDoc_setDoc]
  unfold liveFlag
  by_cases hc : cid = classId
  · subst hc
    rw [if_pos rfl]
    rw [show ({ s with classes := setIsLiveFirst s.classes cid true,
                       sessions := setDoc s.sessions cid v } : State).classes =
        setIsLiveFirst s.classes cid true from rfl]
    rw [find?_setIsLiveFirst_self _ _ _ _ hf]
    rfl
  · rw [if_neg hc]
    rw [show ({ s with classes := setIsLiveFirst s.classes classId true,
                       sessions := setDoc s.sessions classId v } : State).classes =
        setIsLiveFirst s.classes classId true from rfl]
    rw [find?_setIsLiveFirst_other _ _ _ _ hc]
    have h2 := h cid
    unfold liveFlag at h2
    exact h2

theorem invLive_endLive (s : State) (classId : String)
    (h : InvLive s) (cl : ClassModel)
    (hf : s.classes.find? (fun c => c.id == classId) = some cl) :
    InvLive { s with classes := setIsLiveFirst s.classes classId false,
                     sessions := deleteDoc s.sessions classId } := by
  intro cid
  show (getDoc (deleteDoc s.sessions classId) cid).isSome =
    liveFlag { s with classes := setIsLiveFirst s.classes classId false,
                      sessions := deleteDoc s.sessions classId } cid
  rw [getDoc_deleteDoc]
  unfold liveFlag
  by_cases hc : cid = classId
  · subst hc
    rw [if_pos rfl]
    rw [show ({ s with classes := setIsLiveFirst s.classes cid false,
                       sessions := deleteDoc s.sessions cid } : State).classes =
        setIsLiveFirst s.classes cid false from rfl]
    rw [find?_setIsLiveFirst_self _ _ _ _ hf]
    rfl
  · rw [if_neg hc]
    rw [show ({ s with classes := setIsLiveFirst s.classes classId false,
                       sessions := deleteDoc s.sessions classId } : State).classes =
        setIsLiveFirst s.classes classId false from rfl]
    rw [find?_setIsLiveFirst_other _ _ _ _ hc]
    have h2 := h cid
    unfold liveFlag at h2
    exact h2

theorem invLive_setClassLiveStatus (s : State) (classId : String) (b : Bool)
    (h : InvLive s) : InvLive (MockBackendService.setClassLiveStatus s classId b) := by
  unfold MockBackendService.setClassLiveStatus
  cases hf : s.classes.find? (fun c => c.id == classId) with
  | none => exact h
  | some cl =>
      cases b with
      | true => exact invLive_goLive s classId _ h cl hf
      | false => exact invLive_endLive s classId h cl hf

theorem invLive_createClass (s : State) (t ti d i ca : String) (h : InvLive s) :
    InvLive (MockBackendService.createClass s t ti d i ca) := by
  intro cid
  have h0 := h cid
  unfold liveFlag at h0
  show (getDoc s.sessions cid).isSome =
    liveFlag (MockBackendService.createClass s t ti d i ca) cid
  unfold liveFlag MockBackendService.createClass
  rw [show ({ s with classes := s.classes ++ [_] } : State).classes =
      s.classes ++ [{ id := i, teacher_id := t, title := ti, description := d,
                      created_at := ca, isLive := false }] from rfl]
  rw [List.find?_append]
  cases hf : s.classes.find? (fun c => c.id == cid) with
  | some c =>
      rw [hf] at h0
      simpa [Option.or] using h0
  | none =>
      rw [hf] at h0
      by_cases hid : (i == cid) = true
      · simpa [Option.or, List.find?_cons, hid] using h0
      · simpa [Option.or, List.find?_cons, hid] using h0

theorem invLive_updateStreamMode (s : State) (classId : String)
    (mode : StreamMode) (h : InvLive s) :
    InvLive (MockBackendService.updateStreamMode s classId mode) := by
  unfold MockBackendService.updateStreamMode
  cases hs : getDoc s.sessions classId with
  | none => exact h
  | some sess => exact invLive_setDoc_existing s classId _ sess hs h

theorem invLive_raiseHand (s : State) (classId studentId : String)
    (h : InvLive s) : InvLive (MockBackendService.raiseHand s classId studentId) := by
  unfold MockBackendService.raiseHand
  split
  · exact h
  · rename_i sess hs
    split
    · exact h
    · exact invLive_setDoc_existing s classId _ sess hs h

theorem invLive_lowerHand (s : State) (classId studentId : String)
    (h : InvLive s) : InvLive (MockBackendService.lowerHand s classId studentId) := by
  unfold MockBackendService.lowerHand
  cases hs : getDoc s.sessions classId with
  | none => exact h
  | some sess => exact invLive_setDoc_existing s classId _ sess hs h

theorem invLive_muteSpeaker (s : State) (classId studentId : String)
    (h : InvLive s) : InvLive (MockBackendService.muteSpeaker s classId studentId) := by
  unfold MockBackendService.muteSpeaker
  cases hs : getDoc s.sessions classId with
  | none => exact h
  | some sess => exact invLive_setDoc_existing s classId _ sess hs h

theorem invLive_allowSpeaker (s : State) (classId studentId : String)
    (h : InvLive s) : InvLive (MockBackendService.allowSpeaker s classId studentId) := by
  unfold MockBackendService.allowSpeaker
  split
  · exact h
  · rename_i sess hs
    have hbase :
        InvLive (if sess.activeSpeakers.contains studentId then s
          else { s with
                   sessions :=
                     setDoc s.sessions classId
                       ({ sess with
                           activeSpeakers := sess.activeSpeakers ++ [studentId] }) }) := by
      split
      · exact h
      · exact invLive_setDoc_existing s classId _ sess hs h
    exact invLive_lowerHand _ classId studentId hbase

/-! ### Equational forms of the mock operations -/

theorem setClassLiveStatus_none_eq (s : State) (classId : String) (b : Bool)
    (hf : s.classes.find? (fun c => c.id == classId) = none) :
    MockBackendService.setClassLiveStatus s classId b = s := by
  unfold MockBackendService.setClassLiveStatus
  rw [hf]

theorem setClassLiveStatus_true_eq (s : State) (classId : String)
    (cl : ClassModel)
    (hf : s.classes.find? (fun c => c.id == classId) = some cl) :
    MockBackendService.setClassLiveStatus s classId true =
      { s with
          classes := setIsLiveFirst s.classes classId true,
          sessions :=
            setDoc s.sessions classId
              ({ classId := classId, isLive := true,
                 mode := StreamMode.CAMERA,
                 raisedHands := [], activeSpeakers := [] }) } := by
  unfold MockBackendService.setClassLiveStatus
  rw [hf]
  rfl

theorem setClassLiveStatus_false_eq (s : State) (classId : String)
    (cl : ClassModel)
    (hf : s.classes.find? (fun c => c.id == classId) = some cl) :
    MockBackendService.setClassLiveStatus s classId false =
      { s with
          classes := setIsLiveFirst s.classes classId false,
          sessions := deleteDoc s.sessions classId } := by
  unfold MockBackendService.setClassLiveStatus
  rw [hf]
  rfl

theorem updateStreamMode_none_eq (s : State) (classId : String)
    (mode : StreamMode) (hs : getDoc s.sessions classId = none) :
    MockBackendService.updateStreamMode s classId mode = s := by
  unfold MockBackendService.updateStreamMode
  rw [hs]

theorem updateStreamMode_some_eq (s : State) (classId : String)
    (mode : StreamMode) (sess : LiveSessionState)
    (hs : getDoc s.sessions classId = some sess) :
    MockBackendService.updateStreamMode s classId mode =
      { s with
          sessions := setDoc s.sessions classId ({ sess with mode := mode }) } := by
  unfold MockBackendService.updateStreamMode
  rw [hs]

theorem raiseHand_none_eq (s : State) (classId u : String)
    (hs : getDoc s.sessions classId = none) :
    MockBackendService.raiseHand s classId u = s := by
  unfold MockBackendService.raiseHand
  rw [hs]

theorem raiseHand_some_eq (s : State) (classId u : String)
    (sess : LiveSessionState) (hs : getDoc s.sessions classId = some sess) :
    MockBackendService.raiseHand s classId u =
      if sess.raisedHands.contains u then s
      else
        { s with
            sessions :=
              setDoc s.sessions classId
                ({ sess with raisedHands := sess.raisedHands ++ [u] }) } := by
  unfold MockBackendService.raiseHand
  rw [hs]

theorem lowerHand_none_eq (s : State) (classId u : String)
    (hs : getDoc s.sessions classId = none) :
    MockBackendService.lowerHand s classId u = s := by
  unfold MockBackendService.lowerHand
  rw [hs]

theorem lowerHand_some_eq (s : State) (classId u : String)
    (sess : LiveSessionState) (hs : getDoc s.sessions classId = some sess) :
    MockBackendService.lowerHand s classId u =
      { s with
          sessions :=
            setDoc s.sessions classId
              ({ sess with raisedHands :=
                  sess.raisedHands.filter (fun id => id != u) }) } := by
  unfold MockBackendService.lowerHand
  rw [hs]

theorem allowSpeaker_none_eq (s : State) (classId u : String)
    (hs : getDoc s.sessions classId = none) :
    MockBackendService.allowSpeaker s classId u = s := by
  unfold MockBackendService.allowSpeaker
  rw [hs]

theorem allowSpeaker_some_eq (s : State) (classId u : String)
    (sess : LiveSessionState) (hs : getDoc s.sessions classId = some sess) :
    MockBackendService.allowSpeaker s classId u =
      MockBackendService.lowerHand
        (if sess.activeSpeakers.contains u then s
         else
           { s with
               sessions :=
                 setDoc s.sessions classId
                   ({ sess with
                       activeSpeakers := sess.activeSpeakers ++ [u] }) })
        classId u := by
  unfold MockBackendService.allowSpeaker
  rw [hs]

theorem muteSpeaker_none_eq (s : State) (classId u : String)
    (hs : getDoc s.sessions classId = none) :
    MockBackendService.muteSpeaker s classId u = s := by
  unfold MockBackendService.muteSpeaker
  rw [hs]

theorem muteSpeaker_some_eq (s : State) (classId u : String)
    (sess : LiveSessionState) (hs : getDoc s.sessions classId = some sess) :
    MockBackendService.muteSpeaker s classId u =
      { s with
          sessions :=
            setDoc s.sessions classId
              ({ sess with activeSpeakers :=
                  sess.activeSpeakers.filter (fun id => id != u) }) } := by
  unfold MockBackendService.muteSpeaker
  rw [hs]

end Mock

namespace Fire

/-! ### Equational forms of the Firestore operations -/

theorem fire_setClassLiveStatus_none_eq (s : State) (classId : String) (b : Bool)
    (now : Nat) (hf : getDoc s.classes classId = none) :
    FirebaseService.setClassLiveStatus s classId b now =
      Except.error FireErr.notFound := by
  unfold FirebaseService.setClassLiveStatus
  rw [hf]

theorem fire_setClassLiveStatus_true_eq (s : State) (classId : String)
    (now : Nat) (c : ClassModel) (hf : getDoc s.classes classId = some c) :
    FirebaseService.setClassLiveStatus s classId true now =
      Except.ok
        { s with
            classes := setDoc s.classes classId ({ c with isLive := true }),
            sessions :=
              setDoc s.sessions classId
                ({ classId := classId, isLive := true,
                   mode := StreamMode.CAMERA,
                   raisedHands := [], activeSpeakers := [],
                   started_at := now }) } := by
  unfold FirebaseService.setClassLiveStatus
  rw [hf]
  rfl

theorem fire_setClassLiveStatus_false_eq (s : State) (classId : String)
    (now : Nat) (c : ClassModel) (hf : getDoc s.classes classId = some c) :
    FirebaseService.setClassLiveStatus s classId false now =
      Except.ok
        { s with
            classes := setDoc s.classes classId ({ c with isLive := false }),
            sessions := deleteDoc s.sessions classId } := by
  unfold FirebaseService.setClassLiveStatus
  rw [hf]
  rfl

theorem fire_updateStreamMode_none_eq (s : State) (classId : String)
    (mode : StreamMode) (hs : getDoc s.sessions classId = none) :
    FirebaseService.updateStreamMode s classId mode =
      Except.error FireErr.notFound := by
  unfold FirebaseService.updateStreamMode
  rw [hs]

theorem fire_updateStreamMode_some_eq (s : State) (classId : String)
    (mode : StreamMode) (sess : LiveSessionState)
    (hs : getDoc s.sessions classId = some sess) :
    FirebaseService.updateStreamMode s classId mode =
      Except.ok
        { s with
            sessions := setDoc s.sessions classId ({ sess with mode := mode }) } := by
  unfold FirebaseService.updateStreamMode
  rw [hs]

theorem fire_raiseHand_none_eq (s : State) (classId u : String)
    (hs : getDoc s.sessions classId = none) :
    FirebaseService.raiseHand s classId u = Except.ok s := by
  unfold FirebaseService.raiseHand
  rw [hs]

theorem fire_raiseHand_some_eq (s : State) (classId u : String)
    (data : LiveSessionState) (hs : getDoc s.sessions classId = some data) :
    FirebaseService.raiseHand s classId u =
      if data.raisedHands.contains u then Except.ok s
      else
        Except.ok
          { s with
              sessions :=
                setDoc s.sessions classId
                  ({ data with raisedHands := data.raisedHands ++ [u] }) } := by
  unfold FirebaseService.raiseHand
  rw [hs]

theorem fire_lowerHand_none_eq (s : State) (classId u : String)
    (hs : getDoc s.sessions classId = none) :
    FirebaseService.lowerHand s classId u = Except.ok s := by
  unfold FirebaseService.lowerHand
  rw [hs]

theorem fire_lowerHand_some_eq (s : State) (classId u : String)
    (data : LiveSessionState) (hs : getDoc s.sessions classId = some data) :
    FirebaseService.lowerHand s classId u =
      Except.ok
        { s with
            sessions :=
              setDoc s.sessions classId
                ({ data with raisedHands :=
                    data.raisedHands.filter (fun id => id != u) }) } := by
  unfold FirebaseService.lowerHand
  rw [hs]

theorem fire_allowSpeaker_none_eq (s : State) (classId u : String)
    (hs : getDoc s.sessions classId = none) :
    FirebaseService.allowSpeaker s classId u = Except.ok s := by
  unfold FirebaseService.allowSpeaker
  rw [hs]

theorem fire_allowSpeaker_some_eq (s : State) (classId u : String)
    (data : LiveSessionState) (hs : getDoc s.sessions classId = some data) :
    FirebaseService.allowSpeaker s classId u =
      Except.ok
        { s with
            sessions :=
              setDoc s.sessions classId
                ({ data with
                    activeSpeakers := data.activeSpeakers ++ [u],
                    raisedHands :=
                      data.raisedHands.filter (fun id => id != u) }) } := by
  unfold FirebaseService.allowSpeaker
  rw [hs]

end Fire


/-! ### Auxiliary facts -/

theorem setIsLiveFirst_id (l : List Mock.ClassModel) (classId : String) (b : Bool)
    (cl : Mock.ClassModel)
    (hf : l.find? (fun c => c.id == classId) = some cl) (hb : cl.isLive = b) :
    Mock.setIsLiveFirst l classId b = l := by
  induction l with
  | nil => simp at hf
  | cons c rest ih =>
      by_cases hc : (c.id == classId) = true
      · have hcl : c = cl := by simpa [List.find?_cons, hc] using hf
        subst hcl
        simp only [Mock.setIsLiveFirst, hc, if_pos]
        rw [show ({ c with isLive := b } : Mock.ClassModel) = c from by
          cases c; simp_all]
      · have h2 : rest.find? (fun x => x.id == classId) = some cl := by
          simpa [List.find?_cons, hc] using hf
        simp [Mock.setIsLiveFirst, hc, ih h2]

/-! ### Concrete fixtures used to instantiate universally quantified results -/

def wMockClass : Mock.ClassModel :=
  { id := "c1", teacher_id := "t1", title := "Math", description := "Calc",
    created_at := "d0", isLive := true }

def wMockSess : Mock.LiveSessionState :=
  { classId := "c1", isLive := true, mode := StreamMode.CAMERA,
    raisedHands := ["u1"], activeSpeakers := ["u2"] }

def wMock : Mock.State :=
  { users := [], classes := [wMockClass], enrollments := [],
    sessions := [("c1", wMockSess)] }

def wMockClassOff : Mock.ClassModel :=
  { id := "c1", teacher_id := "t1", title := "Math", description := "Calc",
    created_at := "d0", isLive := false }

def wMockOff : Mock.State :=
  { users := [], classes := [wMockClassOff], enrollments := [], sessions := [] }

def wFireClass : Fire.ClassModel :=
  { id := "c1", teacher_id := "t1", title := "Math", description := "Calc",
    created_at := "d0", isLive := true, join_code := none }

def wFireSess : Fire.LiveSessionState :=
  { classId := "c1", isLive := true, mode := StreamMode.CAMERA,
    raisedHands := ["u1"], activeSpeakers := ["u2"], started_at := 1 }

def wFire : Fire.State :=
  { classes := [("c1", wFireClass)], sessions := [("c1", wFireSess)],
    users := [], enrollments := [] }

def wFireClassOff : Fire.ClassModel :=
  { id := "c1", teacher_id := "t1", title := "Math", description := "Calc",
    created_at := "d0", isLive := false, join_code := none }

def wFireOff : Fire.State :=
  { classes := [("c1", wFireClassOff)], sessions := [], users := [],
    enrollments := [] }

def wFireEmpty : Fire.State :=
  { classes := [], sessions := [], users := [], enrollments := [] }

/-! ### Claims -/

/-- C1: for every live session and user id `u`, immediately after
`admitSpeaker(c,u)` (implemented as `allowSpeaker`), `u` is a member of
`active_speakers` and not a member of `raised_hands`, whether or not `u`
was previously in `raised_hands`; both changes are applied in the one state
transition of the operation, in both the mock and the Firestore service. -/
theorem admitSpeaker_membership_post :
    (∀ (s : Mock.State) (c u : String) (sess : Mock.LiveSessionState),
        getDoc s.sessions c = some sess →
        ∃ sess2 : Mock.LiveSessionState,
          Mock.MockBackendService.getLiveSessionState
              (Mock.MockBackendService.allowSpeaker s c u) c = some sess2 ∧
          u ∈ sess2.activeSpeakers ∧ u ∉ sess2.raisedHands) ∧
    (∀ (s : Fire.State) (c u : String) (data : Fire.LiveSessionState),
        getDoc s.sessions c = some data →
        ∃ s2 : Fire.State,
          Fire.FirebaseService.allowSpeaker s c u = Except.ok s2 ∧
          ∃ sess2 : Fire.LiveSessionState,
            getDoc s2.sessions c = some sess2 ∧
            u ∈ sess2.activeSpeakers ∧ u ∉ sess2.raisedHands) := by
  constructor
  · intro s c u sess hs
    rw [Mock.allowSpeaker_some_eq s c u sess hs]
    by_cases hmem : sess.activeSpeakers.contains u = true
    · rw [if_pos hmem]
      rw [show Mock.MockBackendService.getLiveSessionState
            (Mock.MockBackendService.lowerHand s c u) c =
          some ({ sess with raisedHands :=
              sess.raisedHands.filter (fun id => id != u) }) from by
        rw [Mock.lowerHand_some_eq s c u sess hs]
        show getDoc (setDoc s.sessions c _) c = _
        rw [getDoc_setDoc, if_pos rfl]]
      refine ⟨_, rfl, ?_, ?_⟩
      · exact List.mem_of_elem_eq_true hmem
      · simp
    · rw [if_neg hmem]
      have hs2 : getDoc (setDoc s.sessions c
            ({ sess with activeSpeakers := sess.activeSpeakers ++ [u] })) c =
          some ({ sess with activeSpeakers := sess.activeSpeakers ++ [u] }) := by
        rw [getDoc_setDoc, if_pos rfl]
      rw [Mock.lowerHand_some_eq
            { s with
                sessions :=
                  setDoc s.sessions c
                    ({ sess with
                        activeSpeakers := sess.activeSpeakers ++ [u] }) }
            c u _ hs2]
      refine ⟨{ sess with
                  raisedHands := sess.raisedHands.filter (fun id => id != u),
                  activeSpeakers := sess.activeSpeakers ++ [u] }, ?_, ?_, ?_⟩
      · show getDoc (setDoc _ c _) c = some _
        rw [getDoc_setDoc, if_pos rfl]
      · simp
      · simp
  · intro s c u data hs
    refine ⟨_, Fire.fire_allowSpeaker_some_eq s c u data hs,
      { data with
          activeSpeakers := data.activeSpeakers ++ [u],
          raisedHands := data.raisedHands.filter (fun id => id != u) },
      ?_, ?_, ?_⟩
    · show getDoc (setDoc s.sessions c _) c = some _
      rw [getDoc_setDoc, if_pos rfl]
    · simp
    · simp

/-- C1 witness: the postcondition at a concrete live session where the user
has a raised hand and is not yet a speaker. -/
theorem admitSpeaker_membership_post_witness :
    (∃ sess2 : Mock.LiveSessionState,
      Mock.MockBackendService.getLiveSessionState
          (Mock.MockBackendService.allowSpeaker wMock "c1" "u1") "c1" =
        some sess2 ∧
      "u1" ∈ sess2.activeSpeakers ∧ "u1" ∉ sess2.raisedHands) ∧
    (∃ s2 : Fire.State,
      Fire.FirebaseService.allowSpeaker wFire "c1" "u1" = Except.ok s2 ∧
      ∃ sess2 : Fire.LiveSessionState,
        getDoc s2.sessions "c1" = some sess2 ∧
        "u1" ∈ sess2.activeSpeakers ∧ "u1" ∉ sess2.raisedHands) :=
  ⟨admitSpeaker_membership_post.1 wMock "c1" "u1" wMockSess rfl,
   admitSpeaker_membership_post.2 wFire "c1" "u1" wFireSess rfl⟩

/-- C2 counterexample: `startSession` (`setClassLiveStatus` with `true`) on a
class id with no class record creates no session, so the immediately
following `getSessionState` returns absent rather than a fresh CAMERA
record with empty membership sets. -/
theorem startSession_unknown_class_returns_absent :
    Mock.MockBackendService.getLiveSessionState
      (Mock.MockBackendService.setClassLiveStatus
        { users := [], classes := [], enrollments := [], sessions := [] }
        "c" true) "c" = none := rfl

/-- C2 amended: for every class id whose class record exists, `startSession`
followed immediately by `getSessionState` returns a fresh record with
`mode = CAMERA` and empty `raised_hands`/`active_speakers`, regardless of the
prior state (so membership from an earlier cycle is never visible). -/
theorem startSession_fresh_record_of_class_exists :
    (∀ (s : Mock.State) (c : String) (cl : Mock.ClassModel),
        s.classes.find? (fun x => x.id == c) = some cl →
        Mock.MockBackendService.getLiveSessionState
            (Mock.MockBackendService.setClassLiveStatus s c true) c =
          some { classId := c, isLive := true, mode := StreamMode.CAMERA,
                 raisedHands := [], activeSpeakers := [] }) ∧
    (∀ (s : Fire.State) (c : String) (cl : Fire.ClassModel) (now : Nat),
        getDoc s.classes c = some cl →
        (Fire.FirebaseService.setClassLiveStatus s c true now).map
            (fun s2 => getDoc s2.sessions c) =
          Except.ok (some { classId := c, isLive := true,
                            mode := StreamMode.CAMERA, raisedHands := [],
                            activeSpeakers := [], started_at := now })) := by
  constructor
  · intro s c cl hf
    rw [Mock.setClassLiveStatus_true_eq s c cl hf]
    show getDoc (setDoc s.sessions c _) c = _
    rw [getDoc_setDoc, if_pos rfl]
  · intro s c cl now hf
    rw [Fire.fire_setClassLiveStatus_true_eq s c now cl hf]
    show Except.ok (getDoc (setDoc s.sessions c _) c) = _
    rw [getDoc_setDoc, if_pos rfl]

/-- C2 witness: fresh-record result at a concrete prior state that already
has a raised hand and an active speaker. -/
theorem startSession_fresh_record_of_class_exists_witness :
    Mock.MockBackendService.getLiveSessionState
        (Mock.MockBackendService.setClassLiveStatus wMock "c1" true) "c1" =
      some { classId := "c1", isLive := true, mode := StreamMode.CAMERA,
             raisedHands := [], activeSpeakers := [] } ∧
    (Fire.FirebaseService.setClassLiveStatus wFire "c1" true 5).map
        (fun s2 => getDoc s2.sessions "c1") =
      Except.ok (some { classId := "c1", isLive := true,
                        mode := StreamMode.CAMERA, raisedHands := [],
                        activeSpeakers := [], started_at := 5 }) :=
  ⟨startSession_fresh_record_of_class_exists.1 wMock "c1" wMockClass rfl,
   startSession_fresh_record_of_class_exists.2 wFire "c1" wFireClass 5 rfl⟩

/-- C3: `endSession` followed by `getSessionState` returns absent (under the
liveness invariant relating session presence to the class flag, which every
reachable state satisfies), no residual record remains, and ending an
already-ended session is a no-op (the state is returned unchanged), not an
error — in both services.  In the Firestore service an `endSession` on a
class id with no class document rejects before touching the session store,
and even then no session record exists for that id. -/
theorem endSession_leaves_no_record :
    (∀ (s : Mock.State) (c : String),
        (getDoc s.sessions c).isSome = Mock.liveFlag s c →
        Mock.MockBackendService.getLiveSessionState
          (Mock.MockBackendService.setClassLiveStatus s c false) c = none) ∧
    (∀ (s : Mock.State) (c : String) (cl : Mock.ClassModel),
        s.classes.find? (fun x => x.id == c) = some cl → cl.isLive = false →
        getDoc s.sessions c = none →
        Mock.MockBackendService.setClassLiveStatus s c false = s) ∧
    (∀ (s : Fire.State) (c : String) (now : Nat),
        (getDoc s.classes c = none → getDoc s.sessions c = none) →
        ((∀ s2, Fire.FirebaseService.setClassLiveStatus s c false now =
              Except.ok s2 → getDoc s2.sessions c = none) ∧
         (Fire.FirebaseService.setClassLiveStatus s c false now =
              Except.error Fire.FireErr.notFound → getDoc s.sessions c = none))) ∧
    (∀ (s : Fire.State) (c : String) (now : Nat) (cl : Fire.ClassModel),
        getDoc s.classes c = some cl → cl.isLive = false →
        getDoc s.sessions c = none →
        Fire.FirebaseService.setClassLiveStatus s c false now = Except.ok s) := by
  refine ⟨?_, ?_, ?_, ?_⟩
  · intro s c hinv
    cases hf : s.classes.find? (fun x => x.id == c) with
    | none =>
        rw [Mock.setClassLiveStatus_none_eq s c false hf]
        have hflag : Mock.liveFlag s c = false := by
          unfold Mock.liveFlag; rw [hf]
        rw [hflag] at hinv
        show getDoc s.sessions c = none
        cases hgd : getDoc s.sessions c with
        | none => rfl
        | some v => rw [hgd] at hinv; simp at hinv
    | some cl =>
        rw [Mock.setClassLiveStatus_false_eq s c cl hf]
        show getDoc (deleteDoc s.sessions c) c = none
        rw [getDoc_deleteDoc, if_pos rfl]
  · intro s c cl hf hlive hsess
    rw [Mock.setClassLiveStatus_false_eq s c cl hf,
        setIsLiveFirst_id s.classes c false cl hf hlive,
        deleteDoc_absent s.sessions c hsess]
  · intro s c now hinv
    cases hf : getDoc s.classes c with
    | none =>
        constructor
        · intro s2 hok
          rw [Fire.fire_setClassLiveStatus_none_eq s c false now hf] at hok
          cases hok
        · intro _
          exact hinv hf
    | some cl =>
        constructor
        · intro s2 hok
          rw [Fire.fire_setClassLiveStatus_false_eq s c now cl hf] at hok
          obtain rfl := (Except.ok.inj hok).symm
          show getDoc (deleteDoc s.sessions c) c = none
          rw [getDoc_deleteDoc, if_pos rfl]
        · intro herr
          rw [Fire.fire_setClassLiveStatus_false_eq s c now cl hf] at herr
          cases herr
  · intro s c now cl hf hlive hsess
    rw [Fire.fire_setClassLiveStatus_false_eq s c now cl hf]
    have hcl : ({ cl with isLive := false } : Fire.ClassModel) = cl := by
      cases cl; simp_all
    rw [hcl, setDoc_self s.classes c cl hf, deleteDoc_absent s.sessions c hsess]

/-- C3 witness: the four clauses instantiated at concrete states — ending a
live session, ending an already-ended class, and the Firestore variants. -/
theorem endSession_leaves_no_record_witness :
    Mock.MockBackendService.getLiveSessionState
      (Mock.MockBackendService.setClassLiveStatus wMock "c1" false) "c1" = none ∧
    Mock.MockBackendService.setClassLiveStatus wMockOff "c1" false = wMockOff ∧
    (∀ s2, Fire.FirebaseService.setClassLiveStatus wFireEmpty "c1" false 0 =
        Except.ok s2 → getDoc s2.sessions "c1" = none) ∧
    Fire.FirebaseService.setClassLiveStatus wFireOff "c1" false 0 =
      Except.ok wFireOff :=
  ⟨endSession_leaves_no_record.1 wMock "c1" rfl,
   endSession_leaves_no_record.2.1 wMockOff "c1" wMockClassOff rfl rfl rfl,
   (endSession_leaves_no_record.2.2.1 wFireEmpty "c1" 0 (fun _ => rfl)).1,
   endSession_leaves_no_record.2.2.2 wFireOff "c1" 0 wFireClassOff rfl rfl rfl⟩

/-- C4: idempotence of the hand/speaker operations.  It holds throughout the
mock service, but the Firestore `allowSpeaker` appends the user id to
`activeSpeakers` without a membership check (unlike the mock `allowSpeaker`
and unlike `raiseHand` in the same file), so a second call duplicates the
entry instead of being a no-op.  This theorem evaluates the code at the
failing input: one call yields speakers `["u2", "u1"]`, a second call yields
`["u2", "u1", "u1"]`. -/
theorem firebase_allowSpeaker_not_idempotent :
    (Fire.FirebaseService.allowSpeaker wFire "c1" "u1").map
        (fun s2 => (getDoc s2.sessions "c1").map
          (fun x => x.activeSpeakers)) =
      Except.ok (some ["u2", "u1"]) ∧
    ((Fire.FirebaseService.allowSpeaker wFire "c1" "u1").bind
        (fun s2 => Fire.FirebaseService.allowSpeaker s2 "c1" "u1")).bind
        (fun s3 => Except.ok ((getDoc s3.sessions "c1").map
          (fun x => x.activeSpeakers))) =
      Except.ok (some ["u2", "u1", "u1"]) := ⟨rfl, rfl⟩

/-- C5: the mock store invariant — a session record exists for a class id iff
that class carries `isLive = true` — is preserved by `createClass`,
`setClassLiveStatus` (both directions) and every session mutation. -/
theorem mock_live_invariant_preserved :
    (∀ (s : Mock.State) (t ti d i ca : String), Mock.InvLive s →
        Mock.InvLive (Mock.MockBackendService.createClass s t ti d i ca)) ∧
    (∀ (s : Mock.State) (c : String) (b : Bool), Mock.InvLive s →
        Mock.InvLive (Mock.MockBackendService.setClassLiveStatus s c b)) ∧
    (∀ (s : Mock.State) (c : String) (m : StreamMode), Mock.InvLive s →
        Mock.InvLive (Mock.MockBackendService.updateStreamMode s c m)) ∧
    (∀ (s : Mock.State) (c u : String), Mock.InvLive s →
        Mock.InvLive (Mock.MockBackendService.raiseHand s c u)) ∧
    (∀ (s : Mock.State) (c u : String), Mock.InvLive s →
        Mock.InvLive (Mock.MockBackendService.lowerHand s c u)) ∧
    (∀ (s : Mock.State) (c u : String), Mock.InvLive s →
        Mock.InvLive (Mock.MockBackendService.allowSpeaker s c u)) ∧
    (∀ (s : Mock.State) (c u : String), Mock.InvLive s →
        Mock.InvLive (Mock.MockBackendService.muteSpeaker s c u)) :=
  ⟨fun s t ti d i ca h => Mock.invLive_createClass s t ti d i ca h,
   fun s c b h => Mock.invLive_setClassLiveStatus s c b h,
   fun s c m h => Mock.invLive_updateStreamMode s c m h,
   fun s c u h => Mock.invLive_raiseHand s c u h,
   fun s c u h => Mock.invLive_lowerHand s c u h,
   fun s c u h => Mock.invLive_allowSpeaker s c u h,
   fun s c u h => Mock.invLive_muteSpeaker s c u h⟩

/-- C5 witness: the invariant after a concrete `setClassLiveStatus` call from
an invariant-satisfying state. -/
theorem mock_live_invariant_preserved_witness :
    Mock.InvLive (Mock.MockBackendService.setClassLiveStatus
      { users := [], classes := [], enrollments := [], sessions := [] }
      "c" true) :=
  mock_live_invariant_preserved.2.1
    { users := [], classes := [], enrollments := [], sessions := [] }
    "c" true (fun _ => rfl)

/-- C6: the no-duplicates (set-semantics) invariant for
`raised_hands`/`active_speakers`.  It holds in the mock service, whose
operations guard every insertion, but fails in the Firestore service: from a
fresh `startSession`, two `allowSpeaker` calls for the same user produce the
reachable session state whose `activeSpeakers` is `["u1", "u1"]`, which has a
duplicate. -/
theorem firebase_duplicate_speaker_reachable :
    ((Fire.FirebaseService.setClassLiveStatus wFireOff "c1" true 0).bind
        (fun s1 => (Fire.FirebaseService.allowSpeaker s1 "c1" "u1").bind
          (fun s2 => Fire.FirebaseService.allowSpeaker s2 "c1" "u1"))).map
        (fun s3 => (getDoc s3.sessions "c1").map
          (fun x => x.activeSpeakers)) =
      Except.ok (some ["u1", "u1"]) ∧
    ¬ (["u1", "u1"] : List String).Nodup := ⟨rfl, by decide⟩

/-- C7 counterexample: in the Firestore service, `setMode`
(`updateStreamMode`) on a class with no session record is an error, not a
silent no-op — `updateDoc` rejects on a nonexistent document. -/
theorem firebase_setMode_missing_session_errors :
    Fire.FirebaseService.updateStreamMode wFireEmpty "c" StreamMode.SCREEN =
      Except.error Fire.FireErr.notFound := rfl

/-- C7 amended: in the mock service every mutation targeting a missing
entity is a silent no-op (the state is returned unchanged, and
`getSessionState` still returns absent); in the Firestore service
`raiseHand`, `lowerHand` and `allowSpeaker` on a missing session are silent
no-ops, while `setClassLiveStatus` on a missing class document and
`updateStreamMode` on a missing session document reject with a not-found
error (leaving the store untouched, since the failing `updateDoc` is the
first write attempted). -/
theorem missing_entity_mutations :
    (∀ (s : Mock.State) (c : String) (b : Bool),
        s.classes.find? (fun x => x.id == c) = none →
        Mock.MockBackendService.setClassLiveStatus s c b = s) ∧
    (∀ (s : Mock.State) (c : String) (m : StreamMode),
        getDoc s.sessions c = none →
        Mock.MockBackendService.updateStreamMode s c m = s) ∧
    (∀ (s : Mock.State) (c u : String), getDoc s.sessions c = none →
        Mock.MockBackendService.raiseHand s c u = s ∧
        Mock.MockBackendService.lowerHand s c u = s ∧
        Mock.MockBackendService.allowSpeaker s c u = s ∧
        Mock.MockBackendService.muteSpeaker s c u = s) ∧
    (∀ (s : Mock.State) (c : String) (b : Bool),
        s.classes.find? (fun x => x.id == c) = none →
        getDoc s.sessions c = none →
        Mock.MockBackendService.getLiveSessionState
          (Mock.MockBackendService.setClassLiveStatus s c b) c = none) ∧
    (∀ (s : Fire.State) (c u : String), getDoc s.sessions c = none →
        Fire.FirebaseService.raiseHand s c u = Except.ok s ∧
        Fire.FirebaseService.lowerHand s c u = Except.ok s ∧
        Fire.FirebaseService.allowSpeaker s c u = Except.ok s) ∧
    (∀ (s : Fire.State) (c : String) (m : StreamMode),
        getDoc s.sessions c = none →
        Fire.FirebaseService.updateStreamMode s c m =
          Except.error Fire.FireErr.notFound) ∧
    (∀ (s : Fire.State) (c : String) (b : Bool) (now : Nat),
        getDoc s.classes c = none →
        Fire.FirebaseService.setClassLiveStatus s c b now =
          Except.error Fire.FireErr.notFound) := by
  refine ⟨?_, ?_, ?_, ?_, ?_, ?_, ?_⟩
  · exact fun s c b hf => Mock.setClassLiveStatus_none_eq s c b hf
  · exact fun s c m hs => Mock.updateStreamMode_none_eq s c m hs
  · exact fun s c u hs =>
      ⟨Mock.raiseHand_none_eq s c u hs, Mock.lowerHand_none_eq s c u hs,
       Mock.allowSpeaker_none_eq s c u hs, Mock.muteSpeaker_none_eq s c u hs⟩
  · intro s c b hf hs
    rw [Mock.setClassLiveStatus_none_eq s c b hf]
    exact hs
  · exact fun s c u hs =>
      ⟨Fire.fire_raiseHand_none_eq s c u hs, Fire.fire_lowerHand_none_eq s c u hs,
       Fire.fire_allowSpeaker_none_eq s c u hs⟩
  · exact fun s c m hs => Fire.fire_updateStreamMode_none_eq s c m hs
  · exact fun s c b now hf => Fire.fire_setClassLiveStatus_none_eq s c b now hf

/-- C7 witness: the no-op and error behaviors at concrete states with no
session (and, for the last clause, no class). -/
theorem missing_entity_mutations_witness :
    Mock.MockBackendService.raiseHand wMockOff "c1" "u1" = wMockOff ∧
    Fire.FirebaseService.raiseHand wFireOff "c1" "u1" = Except.ok wFireOff ∧
    Fire.FirebaseService.setClassLiveStatus wFireEmpty "c1" true 0 =
      Except.error Fire.FireErr.notFound :=
  ⟨(missing_entity_mutations.2.2.1 wMockOff "c1" "u1" rfl).1,
   (missing_entity_mutations.2.2.2.2.1 wFireOff "c1" "u1" rfl).1,
   missing_entity_mutations.2.2.2.2.2.2 wFireEmpty "c1" true 0 rfl⟩

/-- C8: each mutation of a live session touches only its designated field:
`updateStreamMode` yields the same record with only `mode` replaced;
`raiseHand`/`lowerHand` change only `raisedHands`; `muteSpeaker` changes only
`activeSpeakers`; sessions under other class ids and the remaining store
(users, classes, enrollments) are untouched — in both services. -/
theorem mutation_frame :
    (∀ (s : Mock.State) (c : String) (m : StreamMode)
        (sess : Mock.LiveSessionState), getDoc s.sessions c = some sess →
        (Mock.MockBackendService.updateStreamMode s c m).users = s.users ∧
        (Mock.MockBackendService.updateStreamMode s c m).classes = s.classes ∧
        (Mock.MockBackendService.updateStreamMode s c m).enrollments =
          s.enrollments ∧
        Mock.MockBackendService.getLiveSessionState
            (Mock.MockBackendService.updateStreamMode s c m) c =
          some ({ sess with mode := m }) ∧
        ∀ c2, c2 ≠ c →
          Mock.MockBackendService.getLiveSessionState
              (Mock.MockBackendService.updateStreamMode s c m) c2 =
            Mock.MockBackendService.getLiveSessionState s c2) ∧
    (∀ (s : Mock.State) (c u : String) (sess : Mock.LiveSessionState),
        getDoc s.sessions c = some sess →
        (Mock.MockBackendService.raiseHand s c u).users = s.users ∧
        (Mock.MockBackendService.raiseHand s c u).classes = s.classes ∧
        (Mock.MockBackendService.raiseHand s c u).enrollments = s.enrollments ∧
        (∃ hands2,
          Mock.MockBackendService.getLiveSessionState
              (Mock.MockBackendService.raiseHand s c u) c =
            some ({ sess with raisedHands := hands2 })) ∧
        ∀ c2, c2 ≠ c →
          Mock.MockBackendService.getLiveSessionState
              (Mock.MockBackendService.raiseHand s c u) c2 =
            Mock.MockBackendService.getLiveSessionState s c2) ∧
    (∀ (s : Mock.State) (c u : String) (sess : Mock.LiveSessionState),
        getDoc s.sessions c = some sess →
        (Mock.MockBackendService.lowerHand s c u).users = s.users ∧
        (Mock.MockBackendService.lowerHand s c u).classes = s.classes ∧
        (Mock.MockBackendService.lowerHand s c u).enrollments = s.enrollments ∧
        Mock.MockBackendService.getLiveSessionState
            (Mock.MockBackendService.lowerHand s c u) c =
          some ({ sess with
                    raisedHands :=
                      sess.raisedHands.filter (fun id => id != u) }) ∧
        ∀ c2, c2 ≠ c →
          Mock.MockBackendService.getLiveSessionState
              (Mock.MockBackendService.lowerHand s c u) c2 =
            Mock.MockBackendService.getLiveSessionState s c2) ∧
    (∀ (s : Mock.State) (c u : String) (sess : Mock.LiveSessionState),
        getDoc s.sessions c = some sess →
        (Mock.MockBackendService.muteSpeaker s c u).users = s.users ∧
        (Mock.MockBackendService.muteSpeaker s c u).classes = s.classes ∧
        (Mock.MockBackendService.muteSpeaker s c u).enrollments =
          s.enrollments ∧
        Mock.MockBackendService.getLiveSessionState
            (Mock.MockBackendService.muteSpeaker s c u) c =
          some ({ sess with
                    activeSpeakers :=
                      sess.activeSpeakers.filter (fun id => id != u) }) ∧
        ∀ c2, c2 ≠ c →
          Mock.MockBackendService.getLiveSessionState
              (Mock.MockBackendService.muteSpeaker s c u) c2 =
            Mock.MockBackendService.getLiveSessionState s c2) ∧
    (∀ (s : Fire.State) (c : String) (m : StreamMode)
        (sess : Fire.LiveSessionState), getDoc s.sessions c = some sess →
        ∃ s2, Fire.FirebaseService.updateStreamMode s c m = Except.ok s2 ∧
          s2.classes = s.classes ∧ s2.users = s.users ∧
          s2.enrollments = s.enrollments ∧
          getDoc s2.sessions c = some ({ sess with mode := m }) ∧
          ∀ c2, c2 ≠ c → getDoc s2.sessions c2 = getDoc s.sessions c2) ∧
    (∀ (s : Fire.State) (c u : String) (data : Fire.LiveSessionState),
        getDoc s.sessions c = some data →
        ∃ s2, Fire.FirebaseService.raiseHand s c u = Except.ok s2 ∧
          s2.classes = s.classes ∧ s2.users = s.users ∧
          s2.enrollments = s.enrollments ∧
          (∃ hands2, getDoc s2.sessions c =
            some ({ data with raisedHands := hands2 })) ∧
          ∀ c2, c2 ≠ c → getDoc s2.sessions c2 = getDoc s.sessions c2) ∧
    (∀ (s : Fire.State) (c u : String) (data : Fire.LiveSessionState),
        getDoc s.sessions c = some data →
        ∃ s2, Fire.FirebaseService.lowerHand s c u = Except.ok s2 ∧
          s2.classes = s.classes ∧ s2.users = s.users ∧
          s2.enrollments = s.enrollments ∧
          getDoc s2.sessions c =
            some ({ data with
                      raisedHands :=
                        data.raisedHands.filter (fun id => id != u) }) ∧
          ∀ c2, c2 ≠ c → getDoc s2.sessions c2 = getDoc s.sessions c2) := by
  refine ⟨?_, ?_, ?_, ?_, ?_, ?_, ?_⟩
  · intro s c m sess hs
    rw [Mock.updateStreamMode_some_eq s c m sess hs]
    refine ⟨rfl, rfl, rfl, ?_, ?_⟩
    · show getDoc (setDoc s.sessions c _) c = some _
      rw [getDoc_setDoc, if_pos rfl]
    · intro c2 hne
      show getDoc (setDoc s.sessions c _) c2 = getDoc s.sessions c2
      rw [getDoc_setDoc, if_neg hne]
  · intro s c u sess hs
    rw [Mock.raiseHand_some_eq s c u sess hs]
    by_cases hmem : sess.raisedHands.contains u = true
    · rw [if_pos hmem]
      refine ⟨rfl, rfl, rfl, ⟨sess.raisedHands, ?_⟩, fun c2 _ => rfl⟩
      show getDoc s.sessions c = some _
      rw [hs]
    · rw [if_neg hmem]
      refine ⟨rfl, rfl, rfl, ⟨sess.raisedHands ++ [u], ?_⟩, ?_⟩
      · show getDoc (setDoc s.sessions c _) c = some _
        rw [getDoc_setDoc, if_pos rfl]
      · intro c2 hne
        show getDoc (setDoc s.sessions c _) c2 = getDoc s.sessions c2
        rw [getDoc_setDoc, if_neg hne]
  · intro s c u sess hs
    rw [Mock.lowerHand_some_eq s c u sess hs]
    refine ⟨rfl, rfl, rfl, ?_, ?_⟩
    · show getDoc (setDoc s.sessions c _) c = some _
      rw [getDoc_setDoc, if_pos rfl]
    · intro c2 hne
      show getDoc (setDoc s.sessions c _) c2 = getDoc s.sessions c2
      rw [getDoc_setDoc, if_neg hne]
  · intro s c u sess hs
    rw [Mock.muteSpeaker_some_eq s c u sess hs]
    refine ⟨rfl, rfl, rfl, ?_, ?_⟩
    · show getDoc (setDoc s.sessions c _) c = some _
      rw [getDoc_setDoc, if_pos rfl]
    · intro c2 hne
      show getDoc (setDoc s.sessions c _) c2 = getDoc s.sessions c2
      rw [getDoc_setDoc, if_neg hne]
  · intro s c m sess hs
    refine ⟨_, Fire.fire_updateStreamMode_some_eq s c m sess hs,
      rfl, rfl, rfl, ?_, ?_⟩
    · show getDoc (setDoc s.sessions c _) c = some _
      rw [getDoc_setDoc, if_pos rfl]
    · intro c2 hne
      show getDoc (setDoc s.sessions c _) c2 = getDoc s.sessions c2
      rw [getDoc_setDoc, if_neg hne]
  · intro s c u data hs
    rw [Fire.fire_raiseHand_some_eq s c u data hs]
    by_cases hmem : data.raisedHands.contains u = true
    · rw [if_pos hmem]
      refine ⟨s, rfl, rfl, rfl, rfl, ⟨data.raisedHands, ?_⟩, fun c2 _ => rfl⟩
      show getDoc s.sessions c = some _
      rw [hs]
    · rw [if_neg hmem]
      refine ⟨_, rfl, rfl, rfl, rfl, ⟨data.raisedHands ++ [u], ?_⟩, ?_⟩
      · show getDoc (setDoc s.sessions c _) c = some _
        rw [getDoc_setDoc, if_pos rfl]
      · intro c2 hne
        show getDoc (setDoc s.sessions c _) c2 = getDoc s.sessions c2
        rw [getDoc_setDoc, if_neg hne]
  · intro s c u data hs
    refine ⟨_, Fire.fire_lowerHand_some_eq s c u data hs, rfl, rfl, rfl, ?_, ?_⟩
    · show getDoc (setDoc s.sessions c _) c = some _
      rw [getDoc_setDoc, if_pos rfl]
    · intro c2 hne
      show getDoc (setDoc s.sessions c _) c2 = getDoc s.sessions c2
      rw [getDoc_setDoc, if_neg hne]

/-- C8 witness: two frame conclusions at the concrete live state `wMock`:
`setMode` keeps the membership sets and `muteSpeaker` keeps `raisedHands`. -/
theorem mutation_frame_witness :
    Mock.MockBackendService.getLiveSessionState
        (Mock.MockBackendService.updateStreamMode wMock "c1" StreamMode.SCREEN)
        "c1" = some ({ wMockSess with mode := StreamMode.SCREEN }) ∧
    Mock.MockBackendService.getLiveSessionState
        (Mock.MockBackendService.muteSpeaker wMock "c1" "u2") "c1" =
      some ({ wMockSess with
                activeSpeakers :=
                  wMockSess.activeSpeakers.filter (fun id => id != "u2") }) :=
  ⟨(mutation_frame.1 wMock "c1" StreamMode.SCREEN wMockSess rfl).2.2.2.1,
   (mutation_frame.2.2.2.1 wMock "c1" "u2" wMockSess rfl).2.2.2.1⟩

/-- C9: `startSession` on an already-live class is accepted, not rejected: it
overwrites the existing session with a fresh CAMERA record with empty
membership sets, discarding every raised hand and speaker permission, in
both services. -/
theorem startSession_on_live_class_overwrites :
    (∀ (s : Mock.State) (c : String) (cl : Mock.ClassModel)
        (sess : Mock.LiveSessionState),
        s.classes.find? (fun x => x.id == c) = some cl → cl.isLive = true →
        getDoc s.sessions c = some sess →
        Mock.MockBackendService.getLiveSessionState
            (Mock.MockBackendService.setClassLiveStatus s c true) c =
          some { classId := c, isLive := true, mode := StreamMode.CAMERA,
                 raisedHands := [], activeSpeakers := [] }) ∧
    (∀ (s : Fire.State) (c : String) (cl : Fire.ClassModel)
        (sess : Fire.LiveSessionState) (now : Nat),
        getDoc s.classes c = some cl → cl.isLive = true →
        getDoc s.sessions c = some sess →
        (Fire.FirebaseService.setClassLiveStatus s c true now).map
            (fun s2 => getDoc s2.sessions c) =
          Except.ok (some { classId := c, isLive := true,
                            mode := StreamMode.CAMERA, raisedHands := [],
                            activeSpeakers := [], started_at := now })) := by
  constructor
  · intro s c cl sess hf hlive hs
    rw [Mock.setClassLiveStatus_true_eq s c cl hf]
    show getDoc (setDoc s.sessions c _) c = _
    rw [getDoc_setDoc, if_pos rfl]
  · intro s c cl sess now hf hlive hs
    rw [Fire.fire_setClassLiveStatus_true_eq s c now cl hf]
    show Except.ok (getDoc (setDoc s.sessions c _) c) = _
    rw [getDoc_setDoc, if_pos rfl]

/-- C9 witness: restarting the already-live fixture class, whose session has
a raised hand and an active speaker, yields the fresh empty record. -/
theorem startSession_on_live_class_overwrites_witness :
    Mock.MockBackendService.getLiveSessionState
        (Mock.MockBackendService.setClassLiveStatus wMock "c1" true) "c1" =
      some { classId := "c1", isLive := true, mode := StreamMode.CAMERA,
             raisedHands := [], activeSpeakers := [] } ∧
    (Fire.FirebaseService.setClassLiveStatus wFire "c1" true 7).map
        (fun s2 => getDoc s2.sessions "c1") =
      Except.ok (some { classId := "c1", isLive := true,
                        mode := StreamMode.CAMERA, raisedHands := [],
                        activeSpeakers := [], started_at := 7 }) :=
  ⟨startSession_on_live_class_overwrites.1 wMock "c1" wMockClass wMockSess
      rfl rfl rfl,
   startSession_on_live_class_overwrites.2 wFire "c1" wFireClass wFireSess 7
      rfl rfl rfl⟩

/-! ### List facts for the analytics aggregation -/

theorem map_reduceOption_map_eq_filterMap {α β γ : Type} (f : α → Option β)
    (g : β → γ) (l : List α) :
    ((l.map f).reduceOption).map g = l.filterMap (fun a => (f a).map g) := by
  show ((l.map f).filterMap id).map g = _
  rw [List.map_filterMap, List.filterMap_map]
  rfl

theorem length_filterMap_eq_countP {α β : Type} (f : α → Option β)
    (l : List α) :
    (l.filterMap f).length = l.countP (fun a => (f a).isSome) := by
  induction l with
  | nil => rfl
  | cons a rest ih =>
      cases hfa : f a with
      | none => simp [List.filterMap_cons, hfa, List.countP_cons, ih]
      | some b => simp [List.filterMap_cons, hfa, List.countP_cons, ih]

/-! ### Analytics fixtures -/

def wStu : Mock.User := { id := "s1", role := UserRole.student, name := "Stu" }

def wEnr : Mock.Enrollment :=
  { id := "e1", class_id := "c1", student_id := "s1" }

def wMockA : Mock.State :=
  { users := [wStu], classes := [wMockClass], enrollments := [wEnr],
    sessions := [] }

def wMockA2 : Mock.State :=
  { users := [wStu], classes := [], enrollments := [wEnr],
    sessions := [("c1", wMockSess)] }

def wFireStu : Fire.User :=
  { id := "s1", role := UserRole.student, name := "Stu" }

def wFireEnr : Fire.Enrollment :=
  { id := "e1", class_id := "c1", student_id := "s1", enrolled_at := "d1" }

def wFireA : Fire.State :=
  { classes := [], sessions := [], users := [("s1", wFireStu)],
    enrollments := [("e1", wFireEnr)] }

def wFireA2 : Fire.State :=
  { classes := [("c1", wFireClass)], sessions := [("c1", wFireSess)],
    users := [("s1", wFireStu)], enrollments := [("e1", wFireEnr)] }

/-- C10: `getClassAnalytics` returns exactly one row per enrollment of the
class whose student id resolves to a user profile (unresolvable enrollments
are silently dropped), in enrollment order; each row carries a
score/attendance pair that is a function of the student id alone (a
char-code hash in the mock, the constants 85/90 in the Firestore service);
and the result depends only on the enrollments and users portions of the
store, so two runs over the same enrollments and profiles return identical
rows. -/
theorem classAnalytics_rows :
    (∀ (s : Mock.State) (c : String),
        Mock.MockBackendService.getClassAnalytics s c =
          (s.enrollments.filter (fun e => e.class_id == c)).filterMap
            (fun e => (s.users.find? (fun v => v.id == e.student_id)).map
              (fun stu =>
                ({ id := stu.id, name := stu.name,
                   score := 70 + Mock.MockBackendService.seedOf stu.id % 30,
                   attendance :=
                     80 + Mock.MockBackendService.seedOf stu.id % 20 } :
                  Mock.StudentAnalytics)))) ∧
    (∀ (s : Mock.State) (c : String),
        (Mock.MockBackendService.getClassAnalytics s c).length =
          (s.enrollments.filter (fun e => e.class_id == c)).countP
            (fun e => (s.users.find? (fun v => v.id == e.student_id)).isSome)) ∧
    (∀ (s1 s2 : Mock.State) (c : String),
        s1.enrollments = s2.enrollments → s1.users = s2.users →
        Mock.MockBackendService.getClassAnalytics s1 c =
          Mock.MockBackendService.getClassAnalytics s2 c) ∧
    (∀ (s : Mock.State) (c : String) (r : Mock.StudentAnalytics),
        r ∈ Mock.MockBackendService.getClassAnalytics s c →
        r.score = 70 + Mock.MockBackendService.seedOf r.id % 30 ∧
        r.attendance = 80 + Mock.MockBackendService.seedOf r.id % 20) ∧
    (∀ (s : Fire.State) (c : String),
        (Fire.FirebaseService.getClassAnalytics s c).length =
          ((s.enrollments.map Prod.snd).filter
            (fun e => e.class_id == c)).countP
            (fun e => (getDoc s.users e.student_id).isSome)) ∧
    (∀ (s1 s2 : Fire.State) (c : String),
        s1.enrollments = s2.enrollments → s1.users = s2.users →
        Fire.FirebaseService.getClassAnalytics s1 c =
          Fire.FirebaseService.getClassAnalytics s2 c) ∧
    (∀ (s : Fire.State) (c : String) (r : Fire.StudentAnalytics),
        r ∈ Fire.FirebaseService.getClassAnalytics s c →
        r.score = 85 ∧ r.attendance = 90 ∧ r.submissions_count = 5) := by
  have hshape : ∀ (s : Mock.State) (c : String),
      Mock.MockBackendService.getClassAnalytics s c =
        (s.enrollments.filter (fun e => e.class_id == c)).filterMap
          (fun e => (s.users.find? (fun v => v.id == e.student_id)).map
            (fun stu =>
              ({ id := stu.id, name := stu.name,
                 score := 70 + Mock.MockBackendService.seedOf stu.id % 30,
                 attendance :=
                   80 + Mock.MockBackendService.seedOf stu.id % 20 } :
                Mock.StudentAnalytics))) := by
    intro s c
    unfold Mock.MockBackendService.getClassAnalytics
    exact map_reduceOption_map_eq_filterMap
      (fun e : Mock.Enrollment =>
        s.users.find? (fun v => v.id == e.student_id)) _ _
  refine ⟨hshape, ?_, ?_, ?_, ?_, ?_, ?_⟩
  · intro s c
    rw [hshape s c, length_filterMap_eq_countP]
    apply List.countP_congr
    intro e he
    cases hfu : s.users.find? (fun v => v.id == e.student_id) <;> simp [hfu]
  · intro s1 s2 c h1 h2
    unfold Mock.MockBackendService.getClassAnalytics
    rw [h1, h2]
  · intro s c r hr
    rw [hshape s c] at hr
    obtain ⟨e, he, hfe⟩ := List.mem_filterMap.mp hr
    cases hfu : s.users.find? (fun v => v.id == e.student_id) with
    | none => rw [hfu] at hfe; cases hfe
    | some stu =>
        rw [hfu] at hfe
        obtain rfl := (Option.some.inj hfe)
        exact ⟨rfl, rfl⟩
  · intro s c
    unfold Fire.FirebaseService.getClassAnalytics
    rw [length_filterMap_eq_countP]
    apply List.countP_congr
    intro e he
    cases hfu : getDoc s.users e.student_id <;> simp [hfu]
  · intro s1 s2 c h1 h2
    unfold Fire.FirebaseService.getClassAnalytics
    rw [h1, h2]
  · intro s c r hr
    unfold Fire.FirebaseService.getClassAnalytics at hr
    obtain ⟨e, he, hfe⟩ := List.mem_filterMap.mp hr
    cases hfu : getDoc s.users e.student_id with
    | none => rw [hfu] at hfe; cases hfe
    | some stu =>
        rw [hfu] at hfe
        obtain rfl := (Option.some.inj hfe)
        exact ⟨rfl, rfl, rfl⟩

/-- C10 witness: the analytics output of the fixture store is unchanged when
the classes/sessions portions differ but enrollments and users agree, and
the single resolvable enrollment yields exactly one row whose pair is the
hash of the student id. -/
theorem classAnalytics_rows_witness :
    Mock.MockBackendService.getClassAnalytics wMockA "c1" =
      Mock.MockBackendService.getClassAnalytics wMockA2 "c1" ∧
    Fire.FirebaseService.getClassAnalytics wFireA "c1" =
      Fire.FirebaseService.getClassAnalytics wFireA2 "c1" ∧
    (({ id := "s1", name := "Stu", score := 84, attendance := 84 } :
        Mock.StudentAnalytics).score =
      70 + Mock.MockBackendService.seedOf
        ({ id := "s1", name := "Stu", score := 84, attendance := 84 } :
          Mock.StudentAnalytics).id % 30) :=
  ⟨classAnalytics_rows.2.2.1 wMockA wMockA2 "c1" rfl rfl,
   classAnalytics_rows.2.2.2.2.2.1 wFireA wFireA2 "c1" rfl rfl,
   (classAnalytics_rows.2.2.2.1 wMockA "c1"
      { id := "s1", name := "Stu", score := 84, attendance := 84 }
      (by decide)).1⟩

end JEXAM

